import Mathlib

/-!
Verification of the mug-designer application core (src/index.js).

The file shallow-embeds the data model and the operations of the
`MugDesigner` class: fabric canvas objects become a Lean structure with
rational coordinates, the canvas object list becomes a `List`, and each
method that the specification's testable properties mention is translated
statement by statement from the source.  All geometry is exact rational
arithmetic; design objects in this application are axis-aligned
(rotation never enters the clamping code) and text/image/pattern objects
are created with center origin, so an object's `left`/`top` fields denote
its center point, exactly as the source manipulates them.
-/

namespace MugDesigner

/-- An axis-aligned rectangle, as used for the safe zone, the bleed zone
and clip regions (fabric `Rect` geometry). -/
structure Rect where
  left : ℚ
  top : ℚ
  width : ℚ
  height : ℚ
  deriving DecidableEq

/-- A fabric canvas object.  `typ` mirrors fabric's `type` discriminator
("i-text", "image", "rect", "line"); `patternImage` is the ad hoc flag set
by `addPatternImage`; `left`/`top` are the object's center coordinates
(all design objects in src/index.js are created with
`originX/originY = "center"`).  `id` models JavaScript object identity,
which fabric's `remove`/`sendToBack` use. -/
structure FabObj where
  typ : String
  text : String
  left : ℚ
  top : ℚ
  width : ℚ
  height : ℚ
  scaleX : ℚ
  scaleY : ℚ
  angle : ℚ
  patternImage : Bool
  excludeFromExport : Bool
  excludeFromLayers : Bool
  selectable : Bool
  evented : Bool
  hasControls : Bool
  visible : Bool
  clipPath : Option Rect
  id : Nat
  deriving DecidableEq

/-- `DEBOUNCE_TIME` constant (src/index.js:9). -/
def DEBOUNCE_TIME : ℚ := 300

/-- `BLEED_MARGIN` constant (src/index.js:8). -/
def BLEED_MARGIN : ℚ := 10

/-- The safe-zone rectangle built in `setupFabric` (src/index.js:113-127)
from margins left 60, right 60, top 3, bottom 5. -/
def safeZoneRect (canvasW canvasH : ℚ) : Rect :=
  { left := 60, top := 3, width := canvasW - (60 + 60), height := canvasH - (3 + 5) }

/-- The bleed-zone rectangle built in `setupFabric` (src/index.js:132-144). -/
def bleedZoneRect (canvasW canvasH : ℚ) : Rect :=
  { left := -BLEED_MARGIN, top := -BLEED_MARGIN,
    width := canvasW + BLEED_MARGIN * 2, height := canvasH + BLEED_MARGIN * 2 }

/-- The axis-aligned bounding box of an unrotated, center-origin object
(fabric's `getBoundingRect(true)` for the objects this app creates). -/
def boundingBox (o : FabObj) : Rect :=
  { left := o.left - o.width * o.scaleX / 2,
    top := o.top - o.height * o.scaleY / 2,
    width := o.width * o.scaleX,
    height := o.height * o.scaleY }

/-- `inner` lies fully inside `outer` (edge contact allowed). -/
def rectContains (outer inner : Rect) : Prop :=
  outer.left ≤ inner.left ∧
  inner.left + inner.width ≤ outer.left + outer.width ∧
  outer.top ≤ inner.top ∧
  inner.top + inner.height ≤ outer.top + outer.height

/-- The bleed-zone escape test of `checkBounds` (src/index.js:602-609).
In the source this only drives a `console.warn`; it mutates nothing, so it
is modelled as a separate observation. -/
def boundaryViolation (bleed : Rect) (o : FabObj) : Bool :=
  let b := boundingBox o
  decide (b.left < bleed.left) ||
  decide (b.left + b.width > bleed.left + bleed.width) ||
  decide (b.top < bleed.top) ||
  decide (b.top + b.height > bleed.top + bleed.height)

/-- `MugDesigner.checkBounds` (src/index.js:595-640), the mutating part.
For `"i-text"` objects: if the scaled width exceeds the safe width the
horizontal scale is reset to `safe.width / obj.width` (and the local
`objWidth` variable to exactly `safe.width`); same for the vertical axis;
then `obj.left`/`obj.top` (the center, as text uses center origin) are
clamped so the half-extents stay inside the safe rectangle.  Non-text
objects are returned untouched. -/
def checkBounds (safe : Rect) (obj : FabObj) : FabObj :=
  if obj.typ = "i-text" then
    let objWidth := obj.width * obj.scaleX
    let objHeight := obj.height * obj.scaleY
    let maxWidth := safe.width
    let maxHeight := safe.height
    let scaleX2 := if objWidth > maxWidth then maxWidth / obj.width else obj.scaleX
    let objWidth2 := if objWidth > maxWidth then maxWidth else objWidth
    let scaleY2 := if objHeight > maxHeight then maxHeight / obj.height else obj.scaleY
    let objHeight2 := if objHeight > maxHeight then maxHeight else objHeight
    let objHalfW := objWidth2 / 2
    let objHalfH := objHeight2 / 2
    let minX := safe.left + objHalfW
    let maxX := safe.left + safe.width - objHalfW
    let minY := safe.top + objHalfH
    let maxY := safe.top + safe.height - objHalfH
    let left1 := if obj.left < minX then minX else obj.left
    let left2 := if left1 > maxX then maxX else left1
    let top1 := if obj.top < minY then minY else obj.top
    let top2 := if top1 > maxY then maxY else top1
    { obj with scaleX := scaleX2, scaleY := scaleY2, left := left2, top := top2 }
  else
    obj

/-- Result of `MugDesigner.snapToCenter` (src/index.js:572-593): the
object's final center and the visibility of the two alignment guides. -/
structure SnapResult where
  center : ℚ × ℚ
  vGuideVisible : Bool
  hGuideVisible : Bool
  deriving DecidableEq

/-- `MugDesigner.snapToCenter` (src/index.js:572-593).  The source reads
`const center = obj.getCenterPoint()` once; the x branch repositions to
`(W/2, center.y)` and the y branch repositions to `(center.x, H/2)` —
both use the initially captured `center`, so the y branch restores the
captured x coordinate even if the x branch had just snapped it. -/
def snapToCenter (canvasW canvasH snapPx : ℚ) (center : ℚ × ℚ) : SnapResult :=
  let snapX := |center.1 - canvasW / 2| < snapPx
  let pos1 := if snapX then (canvasW / 2, center.2) else center
  let snapY := |center.2 - canvasH / 2| < snapPx
  let pos2 := if snapY then (center.1, canvasH / 2) else pos1
  { center := pos2, vGuideVisible := decide snapX, hGuideVisible := decide snapY }

/-- `canvas.add`: appends with topmost z-order (fabric semantics; index 0
is backmost, the last element is frontmost). -/
def canvasAdd (canvas : List FabObj) (o : FabObj) : List FabObj :=
  canvas ++ [o]

/-- `canvas.sendToBack(o)`: fabric removes the object (by identity,
modelled by `id`) and reinserts it at index 0, the back of the stack. -/
def sendToBack (canvas : List FabObj) (o : FabObj) : List FabObj :=
  o :: canvas.filter (fun x => x.id != o.id)

/-- The object-configuration part of `MugDesigner.addPatternImage`
(src/index.js:977-1018): cover-fit scale `max(safeW/imgW, safeH/imgH)`
from margins (60,60,3,5), center placement, interaction locks, the
`patternImage` flag, and the absolute-positioned clip rectangle. -/
def patternConfigure (canvasW canvasH : ℚ) (img : FabObj) : FabObj :=
  let safeW := canvasW - (60 + 60)
  let safeH := canvasH - (3 + 5)
  let scale := max (safeW / img.width) (safeH / img.height)
  { img with
    scaleX := scale, scaleY := scale,
    left := canvasW / 2, top := canvasH / 2,
    selectable := false, evented := false, hasControls := false,
    patternImage := true,
    clipPath := some { left := 60, top := 3, width := safeW, height := safeH } }

/-- `MugDesigner.addPatternImage` (src/index.js:973-1027), the part of the
load callback that mutates the canvas: configure the incoming image,
remove every existing `patternImage` object, then `canvas.add` followed
by `canvas.sendToBack`. -/
def addPatternImage (canvasW canvasH : ℚ) (canvas : List FabObj) (img : FabObj) : List FabObj :=
  let img1 := patternConfigure canvasW canvasH img
  let cleaned := canvas.filter (fun o => !o.patternImage)
  sendToBack (canvasAdd cleaned img1) img1

/-- `MugDesigner.handleImageUpload` (src/index.js:329-382), the part of
the load callback that configures the inserted image: scale
`min(0.3, (canvasW-40)/imgW, (canvasH-40)/imgH)`, center placement, and a
clip rectangle built from margins left 60, right 60, top 10, bottom 10. -/
def handleImageUpload (canvasW canvasH : ℚ) (img : FabObj) : FabObj :=
  let scale := min (3 / 10) (min ((canvasW - 40) / img.width) ((canvasH - 40) / img.height))
  let safeW := canvasW - (60 + 60)
  let safeH := canvasH - (10 + 10)
  { img with
    left := canvasW / 2, top := canvasH / 2,
    scaleX := scale, scaleY := scale,
    clipPath := some { left := 60, top := 10, width := safeW, height := safeH } }

/-- Modelled from the spec: the serialized state of one design object.
The serializer itself (`canvas.toJSON` / `JSON.stringify`) is fabric and
browser library code, not present in src/; per the spec a Snapshot entry
is a DesignObject state — position, scale, rotation, content and variant
flags — sufficient to fully reconstruct the object. -/
structure SerializedObj where
  typ : String
  text : String
  left : ℚ
  top : ℚ
  width : ℚ
  height : ℚ
  scaleX : ℚ
  scaleY : ℚ
  angle : ℚ
  patternImage : Bool
  clipPath : Option Rect
  deriving DecidableEq

/-- Modelled from the spec: serialization of one object's state. -/
def serializeObj (o : FabObj) : SerializedObj :=
  { typ := o.typ, text := o.text, left := o.left, top := o.top,
    width := o.width, height := o.height, scaleX := o.scaleX, scaleY := o.scaleY,
    angle := o.angle, patternImage := o.patternImage, clipPath := o.clipPath }

/-- Modelled from the spec: `canvas.toJSON` (fabric library code, absent
from src/) serializes the canvas object list, skipping every object
flagged `excludeFromExport` — the zones and guides. -/
def serializeCanvas (c : List FabObj) : List SerializedObj :=
  (c.filter (fun o => !o.excludeFromExport)).map serializeObj

/-- Modelled from the spec: reconstruction of a live object from its
serialized state (`canvas.loadFromJSON`, fabric library code absent from
src/).  Restored objects are ordinary interactive design objects. -/
def restoreObj (s : SerializedObj) : FabObj :=
  { typ := s.typ, text := s.text, left := s.left, top := s.top,
    width := s.width, height := s.height, scaleX := s.scaleX, scaleY := s.scaleY,
    angle := s.angle, patternImage := s.patternImage,
    excludeFromExport := false, excludeFromLayers := false,
    selectable := true, evented := true, hasControls := true, visible := true,
    clipPath := s.clipPath, id := 0 }

/-- Modelled from the spec: `canvas.loadFromJSON` replaces the whole live
object set with the snapshot's objects, in order. -/
def restoreCanvas (s : List SerializedObj) : List FabObj :=
  s.map restoreObj

/-- The design-object listing of `updateLayersPanel` (src/index.js:472-480):
zones and guides — all flagged `excludeFromLayers` — are filtered out. -/
def listDesignObjects (c : List FabObj) : List FabObj :=
  c.filter (fun o => !o.excludeFromLayers)

/-- The geometric and content attributes the round-trip property compares:
type, text content, position, natural size, scale, rotation, pattern flag. -/
def objAttrs (o : FabObj) : String × String × ℚ × ℚ × ℚ × ℚ × ℚ × ℚ × ℚ × Bool :=
  (o.typ, o.text, o.left, o.top, o.width, o.height, o.scaleX, o.scaleY, o.angle, o.patternImage)

/-- The bounded push underlying `saveHistory`: append, then drop the
oldest entry once the length exceeds 50 (src/index.js:462-465). -/
def pushBounded {α : Type} (history : List α) (x : α) : List α :=
  let h := history ++ [x]
  if 50 < h.length then h.tail else h

/-- `MugDesigner.saveHistory` (src/index.js:462-465): push the serialized
canvas state, then `shift()` the oldest entry if the length exceeds 50. -/
def saveHistory (history : List (List SerializedObj)) (canvas : List FabObj) :
    List (List SerializedObj) :=
  let h := history ++ [serializeCanvas canvas]
  if 50 < h.length then h.tail else h

/-- `MugDesigner.debounce` (src/index.js:32-38) over an explicit timeline:
given the strictly ordered call times of the debounced function, each call
schedules a timer at `t + wait`; `clearTimeout` cancels it when the next
call arrives strictly before the fire time.  The returned list is every
time at which the wrapped function actually fires. -/
def debounceFires (wait : ℚ) : List ℚ → List ℚ
  | [] => []
  | [t] => [t + wait]
  | t :: t2 :: rest =>
      (if t2 < t + wait then [] else [t + wait]) ++ debounceFires wait (t2 :: rest)

/-- A mesh of the loaded 3D model, keyed by name in `this.meshes`. -/
structure Mesh where
  name : String
  deriving DecidableEq

/-- The state `updateMugTexture` can touch: the mesh registry, the canvas
object list (visibility toggling), the outer mesh's texture binding, and
a rasterization counter making bakes observable. -/
structure MugState where
  meshes : List Mesh
  canvas : List FabObj
  outerMap : Option Nat
  bakeCount : Nat
  deriving DecidableEq

/-- The `this.meshes[name]` lookup populated by `loadMug`
(src/index.js:395-404). -/
def lookupMesh (meshes : List Mesh) (n : String) : Option Mesh :=
  meshes.find? (fun m => m.name == n)

/-- Set the visibility of every `excludeFromExport` object, as the
hide/show bracketing in `updateMugTexture` does (src/index.js:432-451). -/
def setExportVisibility (c : List FabObj) (v : Bool) : List FabObj :=
  c.map (fun o => if o.excludeFromExport then { o with visible := v } else o)

/-- `MugDesigner.updateMugTexture` (src/index.js:428-460): bail out when
the name lookup has no `"Object_4"` outer mesh; otherwise hide overlays,
rasterize (`toDataURL`, counted by `bakeCount`), show overlays again, and
rebind the outer material's texture. -/
def updateMugTexture (s : MugState) : MugState :=
  match lookupMesh s.meshes "Object_4" with
  | none => s
  | some _ =>
      let hidden := setExportVisibility s.canvas false
      let shown := setExportVisibility hidden true
      { s with
        canvas := shown,
        bakeCount := s.bakeCount + 1,
        outerMap := some (s.bakeCount + 1) }

/-- A neutral design object used to build concrete test inputs. -/
def defaultObj : FabObj :=
  { typ := "image", text := "", left := 0, top := 0, width := 1, height := 1,
    scaleX := 1, scaleY := 1, angle := 0, patternImage := false,
    excludeFromExport := false, excludeFromLayers := false,
    selectable := true, evented := true, hasControls := true, visible := true,
    clipPath := none, id := 0 }

/-- The safe-zone rect object, as `setupFabric` creates it for the
default 614×230 canvas. -/
def safeRectObj : FabObj :=
  { defaultObj with
    typ := "rect", left := 60, top := 3, width := 494, height := 222,
    selectable := false, evented := false,
    excludeFromLayers := true, excludeFromExport := true, id := 1 }

/-- The bleed-zone rect object for the default 614×230 canvas. -/
def bleedRectObj : FabObj :=
  { defaultObj with
    typ := "rect", left := -10, top := -10, width := 634, height := 250,
    selectable := false, evented := false,
    excludeFromLayers := true, excludeFromExport := true, id := 2 }

/-- The vertical alignment guide line. -/
def vGuideObj : FabObj :=
  { defaultObj with
    typ := "line", left := 307, top := 0, width := 0, height := 230,
    selectable := false, evented := false, visible := false,
    excludeFromLayers := true, excludeFromExport := true, id := 3 }

/-- The horizontal alignment guide line. -/
def hGuideObj : FabObj :=
  { defaultObj with
    typ := "line", left := 0, top := 115, width := 614, height := 0,
    selectable := false, evented := false, visible := false,
    excludeFromLayers := true, excludeFromExport := true, id := 4 }

/-- The canvas as `setupFabric` leaves it: bleed rect and safe rect sent
to back (bleed backmost), then the two guides. -/
def setupCanvas : List FabObj :=
  [bleedRectObj, safeRectObj, vGuideObj, hGuideObj]

/-- The spec's scenario text object: natural size 600×50, inserted at the
center of the 614×230 canvas. -/
def scenarioText : FabObj :=
  { defaultObj with
    typ := "i-text", text := "Sample Text", left := 307, top := 115,
    width := 600, height := 50, id := 10 }

/-- A concrete 1000×800 source image for the upload path. -/
def uploadImg : FabObj :=
  { defaultObj with typ := "image", width := 1000, height := 800, id := 11 }

/-- A concrete 100×100 pattern source image. -/
def patternImgA : FabObj :=
  { defaultObj with typ := "image", width := 100, height := 100, id := 5 }

/-- A second concrete pattern source image. -/
def patternImgB : FabObj :=
  { defaultObj with typ := "image", width := 200, height := 50, id := 6 }

/-- A concrete designer state whose mesh registry has no `"Object_4"`
outer mesh (only the inner `"Object_5"`). -/
def noOuterState : MugState :=
  { meshes := [{ name := "Object_5" }], canvas := setupCanvas,
    outerMap := none, bakeCount := 0 }

instance (outer inner : Rect) : Decidable (rectContains outer inner) := by
  unfold rectContains
  infer_instance

lemma clamp_bounds (mn mx x : ℚ) (h : mn ≤ mx) :
    mn ≤ (if (if x < mn then mn else x) > mx then mx else (if x < mn then mn else x)) ∧
    (if (if x < mn then mn else x) > mx then mx else (if x < mn then mn else x)) ≤ mx := by
  split_ifs <;> constructor <;> linarith

lemma checkBounds_contains (safe : Rect) (obj : FabObj)
    (ht : obj.typ = "i-text") (hw : 0 < obj.width) (hh : 0 < obj.height)
    (hsx : 0 ≤ obj.scaleX) (hsy : 0 ≤ obj.scaleY) :
    rectContains safe (boundingBox (checkBounds safe obj)) := by
  have hWx : obj.width * (safe.width / obj.width) = safe.width := by
    field_simp
  have hWy : obj.height * (safe.height / obj.height) = safe.height := by
    field_simp
  have hpx : 0 ≤ obj.width * obj.scaleX := mul_nonneg hw.le hsx
  have hpy : 0 ≤ obj.height * obj.scaleY := mul_nonneg hh.le hsy
  unfold checkBounds
  rw [if_pos ht]
  dsimp only [rectContains, boundingBox]
  by_cases hA : obj.width * obj.scaleX > safe.width <;>
    by_cases hB : obj.height * obj.scaleY > safe.height
  · simp only [if_pos hA, if_pos hB]
    rw [hWx, hWy]
    have hx := clamp_bounds (safe.left + safe.width / 2)
      (safe.left + safe.width - safe.width / 2) obj.left (by linarith)
    have hy := clamp_bounds (safe.top + safe.height / 2)
      (safe.top + safe.height - safe.height / 2) obj.top (by linarith)
    exact ⟨by linarith [hx.1], by linarith [hx.2], by linarith [hy.1], by linarith [hy.2]⟩
  · simp only [if_pos hA, if_neg hB]
    rw [hWx]
    have hB2 : obj.height * obj.scaleY ≤ safe.height := le_of_not_lt hB
    have hx := clamp_bounds (safe.left + safe.width / 2)
      (safe.left + safe.width - safe.width / 2) obj.left (by linarith)
    have hy := clamp_bounds (safe.top + obj.height * obj.scaleY / 2)
      (safe.top + safe.height - obj.height * obj.scaleY / 2) obj.top (by linarith)
    exact ⟨by linarith [hx.1], by linarith [hx.2], by linarith [hy.1], by linarith [hy.2]⟩
  · simp only [if_neg hA, if_pos hB]
    rw [hWy]
    have hA2 : obj.width * obj.scaleX ≤ safe.width := le_of_not_lt hA
    have hx := clamp_bounds (safe.left + obj.width * obj.scaleX / 2)
      (safe.left + safe.width - obj.width * obj.scaleX / 2) obj.left (by linarith)
    have hy := clamp_bounds (safe.top + safe.height / 2)
      (safe.top + safe.height - safe.height / 2) obj.top (by linarith)
    exact ⟨by linarith [hx.1], by linarith [hx.2], by linarith [hy.1], by linarith [hy.2]⟩
  · simp only [if_neg hA, if_neg hB]
    have hA2 : obj.width * obj.scaleX ≤ safe.width := le_of_not_lt hA
    have hB2 : obj.height * obj.scaleY ≤ safe.height := le_of_not_lt hB
    have hx := clamp_bounds (safe.left + obj.width * obj.scaleX / 2)
      (safe.left + safe.width - obj.width * obj.scaleX / 2) obj.left (by linarith)
    have hy := clamp_bounds (safe.top + obj.height * obj.scaleY / 2)
      (safe.top + safe.height - obj.height * obj.scaleY / 2) obj.top (by linarith)
    exact ⟨by linarith [hx.1], by linarith [hx.2], by linarith [hy.1], by linarith [hy.2]⟩

lemma checkBounds_noop (safe : Rect) (obj : FabObj)
    (h1 : ¬ obj.width * obj.scaleX > safe.width)
    (h2 : ¬ obj.height * obj.scaleY > safe.height)
    (h3 : ¬ obj.left < safe.left + obj.width * obj.scaleX / 2)
    (h4 : ¬ obj.left > safe.left + safe.width - obj.width * obj.scaleX / 2)
    (h5 : ¬ obj.top < safe.top + obj.height * obj.scaleY / 2)
    (h6 : ¬ obj.top > safe.top + safe.height - obj.height * obj.scaleY / 2) :
    checkBounds safe obj = obj := by
  unfold checkBounds
  by_cases hty : obj.typ = "i-text"
  · rw [if_pos hty]
    simp only [if_neg h1, if_neg h2, if_neg h3, if_neg h5]
    rw [if_neg h4, if_neg h6]
  · rw [if_neg hty]

/-- C1: for every text object, after one application of `checkBounds` the
object's axis-aligned bounding box is fully contained in the safe-zone
rectangle, for all initial positions and nonnegative scales — including
objects whose box starts larger than the safe zone, whose oversized axis
is rescaled down to exactly fit before the center is clamped. -/
theorem checkBounds_containment (safe : Rect) (obj : FabObj)
    (ht : obj.typ = "i-text") (hw : 0 < obj.width) (hh : 0 < obj.height)
    (hsx : 0 ≤ obj.scaleX) (hsy : 0 ≤ obj.scaleY) :
    rectContains safe (boundingBox (checkBounds safe obj)) :=
  checkBounds_contains safe obj ht hw hh hsx hsy

/-- Witness for C1: the spec's scenario — a 600×50 text object at the
center of the 614×230 canvas, clamped against the (60,60,3,5) safe zone. -/
theorem checkBounds_containment_witness :
    scenarioText.typ = "i-text" ∧ 0 < scenarioText.width ∧ 0 < scenarioText.height ∧
    0 ≤ scenarioText.scaleX ∧ 0 ≤ scenarioText.scaleY ∧
    rectContains (safeZoneRect 614 230) (boundingBox (checkBounds (safeZoneRect 614 230) scenarioText)) :=
  ⟨rfl, by decide, by decide, by decide, by decide,
    checkBounds_containment (safeZoneRect 614 230) scenarioText rfl (by decide) (by decide)
      (by decide) (by decide)⟩

/-- C7: `checkBounds` is idempotent on text objects — a second application
changes nothing, and an already-compliant object is left untouched. -/
theorem checkBounds_idempotent (safe : Rect) (obj : FabObj)
    (ht : obj.typ = "i-text") (hw : 0 < obj.width) (hh : 0 < obj.height)
    (hsx : 0 ≤ obj.scaleX) (hsy : 0 ≤ obj.scaleY) :
    checkBounds safe (checkBounds safe obj) = checkBounds safe obj := by
  obtain ⟨c1, c2, c3, c4⟩ := checkBounds_contains safe obj ht hw hh hsx hsy
  dsimp only [boundingBox] at c1 c2 c3 c4
  apply checkBounds_noop <;> simp only [not_lt, gt_iff_lt] <;> linarith

/-- Witness for C7: second application at the spec scenario input. -/
theorem checkBounds_idempotent_witness :
    scenarioText.typ = "i-text" ∧ 0 < scenarioText.width ∧ 0 < scenarioText.height ∧
    0 ≤ scenarioText.scaleX ∧ 0 ≤ scenarioText.scaleY ∧
    checkBounds (safeZoneRect 614 230) (checkBounds (safeZoneRect 614 230) scenarioText)
      = checkBounds (safeZoneRect 614 230) scenarioText :=
  ⟨rfl, by decide, by decide, by decide, by decide,
    checkBounds_idempotent (safeZoneRect 614 230) scenarioText rfl (by decide) (by decide)
      (by decide) (by decide)⟩

/-- C3 counterexample: with canvas 614×230 and threshold 10, an object
centered at (302, 110) has its x center strictly within 10px of
W/2 = 307, yet after `snapToCenter` its center x is not W/2: the y-axis
branch repositions using the center captured before the x snap, undoing
it.  This refutes the claim that snapping on one axis never undoes the
snap applied on the other. -/
theorem snapToCenter_both_axes_cex :
    |(302 : ℚ) - 614 / 2| < 10 ∧
    (snapToCenter 614 230 10 (302, 110)).center = (302, 115) ∧
    (snapToCenter 614 230 10 (302, 110)).center.1 ≠ 614 / 2 := by
  have h1 : |(302 : ℚ) - 614 / 2| < 10 := by norm_num
  have h2 : |(110 : ℚ) - 230 / 2| < 10 := by norm_num
  refine ⟨h1, ?_, ?_⟩ <;> simp [snapToCenter, h1, h2] <;> norm_num

/-- C3 (amended): `snapToCenter` evaluates the two 10px threshold tests
independently on the captured center, and each guide's visibility
reflects exactly its own axis test; when only one axis is within
threshold that axis is snapped exactly to the canvas center and the other
coordinate is unchanged; but because the y branch repositions with the
initially captured x, a y snap always restores the captured x — so when
both axes are within threshold the final center is (original x, H/2),
the x snap being undone. -/
theorem snapToCenter_amended (W H snapPx x y : ℚ) :
    (snapToCenter W H snapPx (x, y)).center =
      (if |y - H / 2| < snapPx then (x, H / 2)
       else if |x - W / 2| < snapPx then (W / 2, y) else (x, y)) ∧
    (snapToCenter W H snapPx (x, y)).vGuideVisible = decide (|x - W / 2| < snapPx) ∧
    (snapToCenter W H snapPx (x, y)).hGuideVisible = decide (|y - H / 2| < snapPx) := by
  unfold snapToCenter
  by_cases hx : |x - W / 2| < snapPx <;> by_cases hy : |y - H / 2| < snapPx <;>
    simp [hx, hy]

lemma addPatternImage_filter_patterns (W H : ℚ) (c : List FabObj) (img : FabObj) :
    (addPatternImage W H c img).filter (fun o => o.patternImage)
      = [patternConfigure W H img] := by
  unfold addPatternImage sendToBack canvasAdd
  dsimp only
  rw [List.filter_cons_of_pos (by simp [patternConfigure])]
  rw [List.cons_eq_cons]
  refine ⟨rfl, ?_⟩
  rw [List.filter_eq_nil_iff]
  intro a ha
  rw [List.mem_filter] at ha
  rcases List.mem_append.mp ha.1 with hc | hs
  · rw [List.mem_filter] at hc
    simpa using hc.2
  · rw [List.mem_singleton] at hs
    subst hs
    simp at ha

lemma patternConfigure_patternImage (W H : ℚ) (img : FabObj) :
    (patternConfigure W H img).patternImage = true := rfl

lemma patternConfigure_id (W H : ℚ) (img : FabObj) :
    (patternConfigure W H img).id = img.id := rfl

/-- C2: after any nonempty sequence of pattern-image insertions, the
canvas contains exactly one pattern-flagged object, and it is the most
recently added one: `addPatternImage` first removes every existing
pattern-flagged object, so at most one exists at any time. -/
theorem addPatternImage_exclusivity (W H : ℚ) (canvas imgs : List FabObj)
    (h : imgs ≠ []) :
    ((imgs.foldl (addPatternImage W H) canvas).filter (fun o => o.patternImage)).length = 1 ∧
    ∀ o ∈ imgs.foldl (addPatternImage W H) canvas,
      o.patternImage = true → o.id = (imgs.getLast h).id := by
  rcases List.eq_nil_or_concat' imgs with rfl | ⟨init, lastI, rfl⟩
  · exact absurd rfl h
  · rw [List.foldl_append]
    simp only [List.foldl_cons, List.foldl_nil, List.getLast_append_singleton]
    have hp := addPatternImage_filter_patterns W H (init.foldl (addPatternImage W H) canvas) lastI
    constructor
    · rw [hp]
      rfl
    · intro o ho hop
      have hmem : o ∈ List.filter (fun o => o.patternImage)
          (addPatternImage W H (init.foldl (addPatternImage W H) canvas) lastI) :=
        List.mem_filter.mpr ⟨ho, hop⟩
      rw [hp, List.mem_singleton] at hmem
      rw [hmem, patternConfigure_id]

/-- Witness for C2: two successive pattern insertions on the freshly set
up canvas leave exactly one pattern object — the second one. -/
theorem addPatternImage_exclusivity_witness :
    (([patternImgA, patternImgB].foldl (addPatternImage 614 230) setupCanvas).filter
        (fun o => o.patternImage)).length = 1 ∧
    ∀ o ∈ [patternImgA, patternImgB].foldl (addPatternImage 614 230) setupCanvas,
      o.patternImage = true →
        o.id = (List.getLast [patternImgA, patternImgB] (List.cons_ne_nil _ _)).id :=
  addPatternImage_exclusivity 614 230 setupCanvas [patternImgA, patternImgB]
    (List.cons_ne_nil _ _)

/-- C9 counterexample: on the freshly set up canvas (bleed rect, safe
rect, guides) the inserted pattern lands at index 0 — the absolute back
of the z-order — while the bleed rect sits at index 1 and the safe rect
at index 2.  So the pattern is *below* the zone rectangles, refuting the
claim that it stays strictly above them. -/
theorem addPatternImage_zorder_cex :
    ((addPatternImage 614 230 setupCanvas patternImgA).findIdx (fun o => o.patternImage)) = 0 ∧
    ((addPatternImage 614 230 setupCanvas patternImgA).findIdx (fun o => o.id == bleedRectObj.id)) = 1 ∧
    ((addPatternImage 614 230 setupCanvas patternImgA).findIdx (fun o => o.id == safeRectObj.id)) = 2 ∧
    ¬ ((addPatternImage 614 230 setupCanvas patternImgA).findIdx (fun o => o.patternImage) >
        (addPatternImage 614 230 setupCanvas patternImgA).findIdx (fun o => o.id == safeRectObj.id)) := by
  refine ⟨by decide, by decide, by decide, by decide⟩

/-- C9 (amended): after `addPatternImage` the pattern object sits at the
absolute bottom of the z-order — index 0, below all user design objects
*and also below* the safe-zone and bleed-zone rectangles, which
`sendToBack` leaves strictly above it. -/
theorem addPatternImage_zorder (W H : ℚ) (c : List FabObj) (img z : FabObj)
    (hz : z ∈ c) (hzp : z.patternImage = false) (hzid : z.id ≠ img.id) :
    ∃ p rest, addPatternImage W H c img = p :: rest ∧ p.patternImage = true ∧ z ∈ rest := by
  refine ⟨_, _, rfl, rfl, ?_⟩
  rw [List.mem_filter]
  constructor
  · exact List.mem_append_left _ (List.mem_filter.mpr ⟨hz, by simp [hzp]⟩)
  · simpa using hzid

/-- Witness for C9 (amended): the safe-zone rect of the setup canvas ends
up strictly above the freshly inserted pattern. -/
theorem addPatternImage_zorder_witness :
    safeRectObj ∈ setupCanvas ∧ safeRectObj.patternImage = false ∧
    safeRectObj.id ≠ patternImgA.id ∧
    ∃ p rest, addPatternImage 614 230 setupCanvas patternImgA = p :: rest ∧
      p.patternImage = true ∧ safeRectObj ∈ rest :=
  ⟨by decide, by decide, by decide,
    addPatternImage_zorder 614 230 setupCanvas patternImgA safeRectObj
      (by decide) (by decide) (by decide)⟩

lemma foldl_pushBounded_drop {α : Type} (l : List α) :
    l.foldl pushBounded [] = l.drop (l.length - 50) := by
  induction l using List.reverseRecOn with
  | nil => rfl
  | append_singleton l' x ih =>
      rw [List.foldl_append, List.foldl_cons, List.foldl_nil, ih]
      unfold pushBounded
      dsimp only
      rcases Nat.lt_or_ge l'.length 50 with hlen | hlen
      · have h0 : l'.length - 50 = 0 := Nat.sub_eq_zero_of_le hlen.le
        have h1 : (l' ++ [x]).length - 50 = 0 := by
          rw [List.length_append, List.length_singleton]
          omega
        rw [h0, List.drop_zero, h1, List.drop_zero]
        rw [if_neg (by rw [List.length_append, List.length_singleton]; omega)]
      · have hdl : (l'.drop (l'.length - 50)).length = 50 := by
          rw [List.length_drop]
          omega
        rw [if_pos (by rw [List.length_append, hdl, List.length_singleton]; omega)]
        rw [← List.drop_one,
          List.drop_append_of_le_length (by rw [hdl]; omega),
          List.drop_drop, List.length_append, List.length_singleton,
          List.drop_append_of_le_length (by omega)]
        have harith : l'.length - 50 + 1 = l'.length + 1 - 50 := by omega
        rw [harith]

/-- C4: starting from an empty history, after more than 50 committed
mutations the History Stack holds exactly 50 entries: the serialized
snapshots of the 50 most recent canvas states, in order (each commit
appends, and past 50 entries the oldest is evicted). -/
theorem saveHistory_bound (canvases : List (List FabObj)) (h : 50 < canvases.length) :
    canvases.foldl saveHistory []
        = (canvases.map serializeCanvas).drop (canvases.length - 50) ∧
    (canvases.foldl saveHistory []).length = 50 := by
  have key : canvases.foldl saveHistory []
      = (canvases.map serializeCanvas).foldl pushBounded [] := by
    rw [List.foldl_map]
    rfl
  rw [key, foldl_pushBounded_drop, List.length_map]
  refine ⟨rfl, ?_⟩
  rw [List.length_drop, List.length_map]
  omega

/-- Witness for C4: 51 commits of the empty canvas. -/
theorem saveHistory_bound_witness :
    50 < (List.replicate 51 ([] : List FabObj)).length ∧
    ((List.replicate 51 ([] : List FabObj)).foldl saveHistory []
        = ((List.replicate 51 ([] : List FabObj)).map serializeCanvas).drop
            ((List.replicate 51 ([] : List FabObj)).length - 50) ∧
      ((List.replicate 51 ([] : List FabObj)).foldl saveHistory []).length = 50) :=
  ⟨by simp, saveHistory_bound (List.replicate 51 []) (by simp)⟩

/-- C5: restoring the serialized snapshot of a canvas yields a canvas
whose listed design objects (zones and guides excluded) are attribute-wise
identical — type, content, position, natural size, scale, rotation and
the pattern flag — to the originals, in order.  The hypothesis states
that exactly the zone/guide overlays are flagged out of both the export
serialization and the layer listing, as `setupFabric` arranges. -/
theorem snapshot_roundtrip (c : List FabObj)
    (h : ∀ o ∈ c, o.excludeFromExport = o.excludeFromLayers) :
    (listDesignObjects (restoreCanvas (serializeCanvas c))).map objAttrs
      = (listDesignObjects c).map objAttrs := by
  induction c with
  | nil => rfl
  | cons o rest ih =>
      have ho := h o (List.mem_cons_self o rest)
      have ih2 := ih (fun x hx => h x (List.mem_cons_of_mem o hx))
      simp only [serializeCanvas, restoreCanvas, listDesignObjects, List.filter_cons] at ih2 ⊢
      cases hexp : o.excludeFromExport with
      | true =>
          have hlay : o.excludeFromLayers = true := by rw [← ho, hexp]
          simpa [hexp, hlay] using ih2
      | false =>
          have hlay : o.excludeFromLayers = false := by rw [← ho, hexp]
          simpa [hexp, hlay, restoreObj, serializeObj, objAttrs, Function.comp] using ih2

/-- Witness for C5: a canvas mixing the zone/guide overlays with a text
object, an uploaded image and a pattern image. -/
theorem snapshot_roundtrip_witness :
    (∀ o ∈ setupCanvas ++ [scenarioText, handleImageUpload 614 230 uploadImg,
        patternConfigure 614 230 patternImgA],
      o.excludeFromExport = o.excludeFromLayers) ∧
    (listDesignObjects (restoreCanvas (serializeCanvas (setupCanvas ++ [scenarioText,
        handleImageUpload 614 230 uploadImg, patternConfigure 614 230 patternImgA])))).map objAttrs
      = (listDesignObjects (setupCanvas ++ [scenarioText, handleImageUpload 614 230 uploadImg,
          patternConfigure 614 230 patternImgA])).map objAttrs :=
  ⟨by decide, snapshot_roundtrip _ (by decide)⟩

/-- C6: for a nonempty burst of mutations whose inter-arrival gaps are
all strictly below the 300 ms debounce window, exactly one texture bake
fires, and it fires at (time of the last mutation + 300 ms): every
earlier timer is cancelled by the next mutation before it can fire. -/
theorem debounce_coalescing (times : List ℚ) :
    ∀ (h1 : times ≠ []),
      times.Chain' (fun a b => a ≤ b ∧ b - a < DEBOUNCE_TIME) →
      debounceFires DEBOUNCE_TIME times = [times.getLast h1 + DEBOUNCE_TIME] := by
  induction times with
  | nil => exact fun h1 _ => absurd rfl h1
  | cons t rest ih =>
      intro h1 h2
      cases rest with
      | nil => simp [debounceFires]
      | cons t2 rest2 =>
          rw [List.chain'_cons] at h2
          have hlt : t2 < t + DEBOUNCE_TIME := by
            have := h2.1.2
            linarith
          have heq : debounceFires DEBOUNCE_TIME (t :: t2 :: rest2)
              = (if t2 < t + DEBOUNCE_TIME then [] else [t + DEBOUNCE_TIME])
                  ++ debounceFires DEBOUNCE_TIME (t2 :: rest2) := rfl
          rw [heq, if_pos hlt, List.nil_append, ih (List.cons_ne_nil _ _) h2.2]
          simp [List.getLast_cons]

/-- Witness for C6: three mutations at 0, 100 and 250 ms — gaps 100 and
150, both under the 300 ms window — produce the single bake of the burst. -/
theorem debounce_coalescing_witness :
    ([(0 : ℚ), 100, 250] ≠ []) ∧
    List.Chain' (fun a b => a ≤ b ∧ b - a < DEBOUNCE_TIME) [(0 : ℚ), 100, 250] ∧
    debounceFires DEBOUNCE_TIME [0, 100, 250]
      = [List.getLast [(0 : ℚ), 100, 250] (List.cons_ne_nil _ _) + DEBOUNCE_TIME] :=
  ⟨List.cons_ne_nil _ _,
    by norm_num [List.chain'_cons, DEBOUNCE_TIME],
    debounce_coalescing _ _ (by norm_num [List.chain'_cons, DEBOUNCE_TIME])⟩

/-- C8 counterexample: for the default 614×230 canvas the upload path
attaches the clip rectangle {left 60, top 10, width 494, height 210}
(margins 60,60,10,10), which is *not* the SafeZone rectangle
{left 60, top 3, width 494, height 222} derived from margins (60,60,3,5);
this refutes the claim that the attached clip region equals the SafeZone. -/
theorem handleImageUpload_clip_cex :
    (handleImageUpload 614 230 uploadImg).clipPath
        = some { left := 60, top := 10, width := 494, height := 210 } ∧
    safeZoneRect 614 230 = { left := 60, top := 3, width := 494, height := 222 } ∧
    (handleImageUpload 614 230 uploadImg).clipPath ≠ some (safeZoneRect 614 230) := by
  refine ⟨?_, ?_, ?_⟩ <;>
    norm_num [handleImageUpload, uploadImg, defaultObj, safeZoneRect, Rect.mk.injEq]

/-- C8 (amended): the insert path sets the initial scale to
`min(0.3, (canvasWidth-40)/imageWidth, (canvasHeight-40)/imageHeight)`
on both axes, and attaches a clip region that shares the SafeZone's left
edge and width but is built from margins (60,60,10,10): its top is 10 and
its height is canvasHeight − 20, so it is not the SafeZone rectangle
(top 3, height canvasHeight − 8). -/
theorem handleImageUpload_amended (canvasW canvasH : ℚ) (img : FabObj) :
    (handleImageUpload canvasW canvasH img).scaleX
        = min (3 / 10) (min ((canvasW - 40) / img.width) ((canvasH - 40) / img.height)) ∧
    (handleImageUpload canvasW canvasH img).scaleY
        = (handleImageUpload canvasW canvasH img).scaleX ∧
    ∃ r, (handleImageUpload canvasW canvasH img).clipPath = some r ∧
      r.left = (safeZoneRect canvasW canvasH).left ∧
      r.width = (safeZoneRect canvasW canvasH).width ∧
      r.top = 10 ∧
      r.height = canvasH - (10 + 10) := by
  exact ⟨rfl, rfl, ⟨_, rfl, rfl, rfl, rfl, rfl⟩⟩

/-- C10: when the mesh registry holds no `"Object_4"` outer mesh,
`updateMugTexture` returns immediately with no state mutation: no
visibility toggling, no rasterization, and the texture binding is left
untouched. -/
theorem updateMugTexture_no_outer (s : MugState)
    (h : lookupMesh s.meshes "Object_4" = none) :
    updateMugTexture s = s := by
  unfold updateMugTexture
  rw [h]

/-- Witness for C10: a state whose registry holds only the inner mesh. -/
theorem updateMugTexture_no_outer_witness :
    lookupMesh noOuterState.meshes "Object_4" = none ∧
    updateMugTexture noOuterState = noOuterState :=
  ⟨by decide, updateMugTexture_no_outer noOuterState (by decide)⟩

end MugDesigner
